import Mathlib

/-!
Verification of the ingestion pipeline and dual-mode search/ranking logic of
`src/functions/index.js` (vertex-pinecone-semantic-search).

The JavaScript source is shallowly embedded: pure string manipulation is
translated to executable Lean functions over `List Char` / `String`; the
external collaborators (Vertex AI description model, multimodal embedding
service, Pinecone vector index, Firestore keyword index) are modelled as
oracle fields of an environment record describing the outcome of each remote
call; JavaScript numbers that only ever hold similarity scores are modelled
as `ℚ`, counters and sizes as `Nat`/`Int`.
-/

namespace VertexPinecone

/-! ## JavaScript string primitives -/

/-- JS truthiness of a possibly-undefined string: `undefined` and `""` are falsy. -/
def jsTruthyStr : Option String → Bool
  | none => false
  | some s => s ≠ ""

/-- First-occurrence deduplication, as performed by `new Set(...)` in JS
(a JS `Set` keeps insertion order; `Array.from` reads it back out). -/
def dedupFirst (seen : List String) : List String → List String
  | [] => []
  | x :: xs => if x ∈ seen then dedupFirst seen xs else x :: dedupFirst (x :: seen) xs

/-- Split a character list at every whitespace character, like JS
`split(/\s+/)` followed by a length filter: runs of whitespace produce empty
tokens here, but every consumer filters by `length > 2` which drops them, so
the two behaviours agree on the token multiset that survives. -/
def splitWsAux (acc : List Char) : List Char → List (List Char)
  | [] => [acc.reverse]
  | c :: rest =>
    if c.isWhitespace then acc.reverse :: splitWsAux [] rest
    else splitWsAux (c :: acc) rest

/-- The punctuation characters removed by `replace(/[.,!?;:]/g, '')`. -/
def punctChars : List Char := ['.', ',', '!', '?', ';', ':']

/-!
Keyword extraction as written at the two call sites in the source.
`describeAndStoreImage` (indexing time, lines 262-267) and `searchImages`
(query time, lines 336-341) each inline the same chain:
`text.toLowerCase().replace(/[.,!?;:]/g,'').split(/\s+/).filter(k => k.length > 2)`
wrapped in `Array.from(new Set(...))`. Each site is transcribed separately so
that their agreement is a provable statement rather than a shared definition.
-/

/-- Keyword extraction as inlined in `describeAndStoreImage` (ingestion). -/
def ingestExtractKeywords (text : String) : List String :=
  dedupFirst []
    (((splitWsAux [] ((text.toList.map Char.toLower).filter (fun c => !punctChars.contains c))).map
        List.asString).filter (fun k => k.length > 2))

/-- Keyword extraction as inlined in `searchImages` (query time). -/
def searchExtractKeywords (text : String) : List String :=
  dedupFirst []
    (((splitWsAux [] ((text.toList.map Char.toLower).filter (fun c => !punctChars.contains c))).map
        List.asString).filter (fun k => k.length > 2))

/-! ## `parseInt(x, 10) || 5` limit parsing -/

/-- Numeric value of a leading run of decimal digits; `none` when the run is
empty (JS `parseInt` yields `NaN` then). -/
def leadingDigitsVal (cs : List Char) : Option Nat :=
  let ds := cs.takeWhile (fun c => '0' ≤ c && c ≤ '9')
  if ds.isEmpty then none
  else some (ds.foldl (fun acc c => acc * 10 + (c.toNat - '0'.toNat)) 0)

/-- JS `parseInt(s, 10)` restricted to what the endpoints can receive: skip
leading whitespace, optional sign, longest decimal-digit run; `none` models
`NaN` (also the result of `parseInt(undefined, 10)`). -/
def jsParseInt : Option String → Option Int
  | none => none
  | some s =>
    match s.toList.dropWhile Char.isWhitespace with
    | '-' :: rest => (leadingDigitsVal rest).map (fun n => -(n : Int))
    | '+' :: rest => (leadingDigitsVal rest).map (fun n => (n : Int))
    | cs => (leadingDigitsVal cs).map (fun n => (n : Int))

/-- `parseInt(req.query.limit, 10) || 5` as written in `searchImages`
(line 325): `NaN` and `0` are falsy, so both fall back to 5. -/
def searchImagesTopK (limit : Option String) : Int :=
  match jsParseInt limit with
  | none => 5
  | some n => if n = 0 then 5 else n

/-- `parseInt(req.query.limit, 10) || 5` as written in `semanticSearchImages`
(line 556). -/
def semanticSearchTopK (limit : Option String) : Int :=
  match jsParseInt limit with
  | none => 5
  | some n => if n = 0 then 5 else n

/-! ## `retryWithBackoff` (lines 70-99)

For Claim C5 the operation under retry always fails with a 429 quota error,
so the `while (retries < maxRetries)` loop is deterministic and can be
simulated directly.  The simulation records how many times `fn` was invoked,
the sequence of base delays slept (the deterministic `delay` summand; the
uniformly random `jitter` is ignored, as the claim does), and whether the
final error was rethrown.  The recursion variable is `maxRetries - retries`,
the number of loop iterations the `while` guard still allows. -/

structure RetryTrace where
  attempts : Nat
  delays : List Nat
  rethrows : Bool
deriving DecidableEq, Repr

/-- One run of `retryWithBackoff(fn, ...)` with `fn` always throwing a 429
error, from a state where the guard allows `rem` more iterations and the
current backoff is `delay`.  Each iteration: `fn` is attempted (and fails),
`retries` is incremented; if `retries >= maxRetries` the error is rethrown,
otherwise the loop sleeps `delay + jitter`, doubles `delay`, and continues. -/
def retry429Aux : Nat → Nat → RetryTrace
  | 0, _ => ⟨0, [], false⟩
  | rem + 1, delay =>
    if rem = 0 then ⟨1, [], true⟩
    else
      let t := retry429Aux rem (delay * 2)
      ⟨t.attempts + 1, delay :: t.delays, t.rethrows⟩

/-- `retryWithBackoff(fn, maxRetries, initialDelay)` with an always-429 `fn`:
the loop starts with `retries = 0` and `delay = initialDelay`.  (When
`maxRetries = 0` the guard fails immediately and the JS function returns
`undefined` without invoking `fn`; `rethrows = false` records that no error
escaped.) -/
def retryAlways429 (maxRetries initialDelay : Nat) : RetryTrace :=
  retry429Aux maxRetries initialDelay

/-! ## `generateMultimodalEmbedding` (lines 458-528) -/

/-- One prediction object of the embedding service response, after
`helpers.fromValue`: it may carry a `textEmbedding` field, an
`imageEmbedding` field, both, or neither.  `some []` models a present but
empty array (truthy in JS); `none` models an absent field (falsy). -/
structure Prediction where
  textEmbedding : Option (List ℚ)
  imageEmbedding : Option (List ℚ)
deriving DecidableEq, Repr

/-- Oracle for the one remote `predict` call (as wrapped in
`retryWithBackoff`): either the call throws (a non-429 error, or a 429 that
exhausted its retries), or it returns a response carrying a list of
predictions. -/
structure EmbedEnv where
  callFails : Bool
  predictions : List Prediction

/-- The request built by `generateMultimodalEmbedding` before the remote
call: the optional text instance field (only a truthy `text` is added, line
467), the optional image locator (line 470), and the fixed output dimension
parameter (line 485). -/
structure EmbedRequest where
  text : Option String
  imageGcsUri : Option String
  dimension : Nat
deriving DecidableEq, Repr

/-- The `embeddingDimension` constant of line 485. -/
def embeddingDimension : Nat := 1408

/-- Request construction of `generateMultimodalEmbedding` (lines 466-496):
`prompt.text` is set only when `text` is truthy, `prompt.image` only when an
`imagePart` was supplied, and `parameters.dimension` is always 1408. -/
def buildEmbedRequest (text : Option String) (imageGcsUri : Option String) : EmbedRequest :=
  { text := if jsTruthyStr text then text else none
    imageGcsUri := imageGcsUri
    dimension := embeddingDimension }

/-- `generateMultimodalEmbedding({text, imagePart})` (lines 458-528).
Validation: if neither a truthy `text` nor an `imagePart` was supplied the
function throws before the remote call.  Otherwise the remote call either
throws (the `catch` wraps the message, line 526), returns zero predictions
(throw, wrapped by the same `catch`), or yields a prediction object whose
`textEmbedding || imageEmbedding` is selected; if neither field is present
the function throws, and otherwise the selected array is returned as-is —
the source performs no check on its length. -/
def generateMultimodalEmbedding (env : EmbedEnv) (text : Option String)
    (imageGcsUri : Option String) : Except String (List ℚ) :=
  if !jsTruthyStr text && imageGcsUri.isNone then
    .error "Either text or an imagePart must be provided."
  else if env.callFails then
    .error "Multimodal embedding failed: remote call error"
  else
    match env.predictions with
    | [] => .error "Multimodal embedding failed: No predictions returned from API."
    | p :: _ =>
      match p.textEmbedding with
      | some v => .ok v
      | none =>
        match p.imageEmbedding with
        | some v => .ok v
        | none => .error "Multimodal embedding failed: Failed to parse embedding from API response."

/-! ## Code-fence stripping (line 218)

`responseText.replace(/STARTjson\n?/g, "").replace(/\n?END/g, "").trim()`
where START/END stand for three backticks.  Each regex replace scans left to
right, removing every (greedy) match. -/

/-- The backtick character (code 96). -/
def backtickChar : Char := Char.ofNat 96

/-- Three backticks, the closing-fence pattern. -/
def fenceTicks : List Char := [backtickChar, backtickChar, backtickChar]

/-- Three backticks followed by `json`, the opening-fence pattern. -/
def fenceOpenPat : List Char := fenceTicks ++ ['j', 's', 'o', 'n']

/-- `dropMatch pat l = some rest` when `l = pat ++ rest`, else `none`. -/
def dropMatch : List Char → List Char → Option (List Char)
  | [], rest => some rest
  | _ :: _, [] => none
  | p :: ps, c :: cs => if p = c then dropMatch ps cs else none

theorem dropMatch_length : ∀ (p l r : List Char), dropMatch p l = some r →
    r.length + p.length = l.length
  | [], _, _, h => by
    simp only [dropMatch, Option.some.injEq] at h
    subst h; simp
  | _ :: _, [], _, h => by simp [dropMatch] at h
  | p :: ps, c :: cs, r, h => by
    simp only [dropMatch] at h
    split at h
    · have := dropMatch_length ps cs r h
      simp only [List.length_cons]; omega
    · exact absurd h (by simp)

/-- Consume the optional newline of the `\n?` in the opening-fence regex. -/
def dropOptNewline : List Char → List Char
  | '\n' :: rest => rest
  | rest => rest

theorem dropOptNewline_length_le (l : List Char) : (dropOptNewline l).length ≤ l.length := by
  match l with
  | [] => simp [dropOptNewline]
  | c :: rest =>
    by_cases h : c = '\n'
    · subst h; simp [dropOptNewline]
    · have : dropOptNewline (c :: rest) = c :: rest := by
        unfold dropOptNewline
        split
        · next heq => rw [show c = '\n' from (List.cons.injEq _ _ _ _ ▸ heq).1] at h; simp at h
        · rfl
      rw [this]

/-- Global replace of the opening-fence regex with the empty string. -/
def removeOpenFences (l : List Char) : List Char :=
  match l with
  | [] => []
  | c :: cs =>
    match h : dropMatch fenceOpenPat (c :: cs) with
    | some rest => removeOpenFences (dropOptNewline rest)
    | none => c :: removeOpenFences cs
termination_by l.length
decreasing_by
  all_goals first
    | (have h1 := dropMatch_length _ _ _ h
       have h2 := dropOptNewline_length_le rest
       simp only [fenceOpenPat, fenceTicks, List.length_append, List.length_cons,
         List.length_nil] at h1
       simp only [List.length_cons]
       omega)
    | simp

/-- Global replace of the closing-fence regex (`\n?` then three backticks)
with the empty string. -/
def removeCloseFences (l : List Char) : List Char :=
  match l with
  | [] => []
  | c :: cs =>
    if c = '\n' then
      match h : dropMatch fenceTicks cs with
      | some rest => removeCloseFences rest
      | none => c :: removeCloseFences cs
    else
      match h : dropMatch fenceTicks (c :: cs) with
      | some rest => removeCloseFences rest
      | none => c :: removeCloseFences cs
termination_by l.length
decreasing_by
  all_goals first
    | (have h1 := dropMatch_length _ _ _ h
       simp only [fenceTicks, List.length_cons, List.length_nil] at h1
       simp only [List.length_cons]
       omega)
    | simp

/-- JS `String.prototype.trim`: strip whitespace from both ends. -/
def jsTrim (l : List Char) : List Char :=
  ((l.dropWhile Char.isWhitespace).reverse.dropWhile Char.isWhitespace).reverse

/-- The cleanup of line 218: strip opening and closing code fences, then trim. -/
def stripFences (s : String) : String :=
  (jsTrim (removeCloseFences (removeOpenFences s.toList))).asString

/-! ## Description parsing with fallback (lines 215-224) -/

/-- `JSON.parse` outcome oracle: `none` models a parse exception; a parse
success is modelled by the `title` and `description` fields of the parsed
value (`none` when the field is absent or not a string). -/
abbrev JsonParseOracle := String → Option (Option String × Option String)

/-- Lines 215-224: parse the fence-stripped text; on a parse exception fall
back to `{title: "Untitled Image", description: responseText}` — note the
fallback uses the raw `responseText`, not the stripped `jsonString`. -/
def parsedDescription (jsonParse : JsonParseOracle) (responseText : String) :
    Option String × Option String :=
  match jsonParse (stripFences responseText) with
  | some td => td
  | none => (some "Untitled Image", some responseText)

/-! ## `describeAndStoreImage` (lines 126-295) -/

/-- JS `String.prototype.startsWith`, at character level. -/
def jsStartsWith (s pat : String) : Bool :=
  pat.toList.isPrefixOf s.toList

/-- Node `path.basename`: drop trailing slashes, then keep the part after the
last remaining slash. -/
def basename (p : String) : String :=
  let cs := p.toList
  let trimmed := (cs.reverse.dropWhile (fun c => c = '/')).reverse
  if trimmed.isEmpty then
    if cs.isEmpty then "" else "/"
  else
    ((trimmed.reverse.takeWhile (fun c => c ≠ '/')).reverse).asString

/-- UTF-8 bytes of one character, for percent-encoding. -/
def utf8Bytes (c : Char) : List Nat :=
  let n := c.toNat
  if n < 128 then [n]
  else if n < 2048 then [192 + n / 64, 128 + n % 64]
  else if n < 65536 then [224 + n / 4096, 128 + n / 64 % 64, 128 + n % 64]
  else [240 + n / 262144, 128 + n / 4096 % 64, 128 + n / 64 % 64, 128 + n % 64]

/-- Upper-case hexadecimal digit. -/
def hexDigit (d : Nat) : Char :=
  if d < 10 then Char.ofNat (48 + d) else Char.ofNat (55 + d)

/-- The apostrophe character (code 39), unreserved in `encodeURIComponent`. -/
def apostropheChar : Char := Char.ofNat 39

/-- Characters `encodeURIComponent` leaves unescaped. -/
def isUriUnreserved (c : Char) : Bool :=
  (Char.ofNat 65 ≤ c && c ≤ Char.ofNat 90) || (Char.ofNat 97 ≤ c && c ≤ Char.ofNat 122)
    || (Char.ofNat 48 ≤ c && c ≤ Char.ofNat 57)
    || c = '-' || c = '_' || c = '.' || c = '!' || c = '~' || c = '*'
    || c = '(' || c = ')' || c = apostropheChar

/-- JS `encodeURIComponent`: percent-encode the UTF-8 bytes of every
reserved character, upper-case hex. -/
def encodeURIComponent (s : String) : String :=
  (s.toList.flatMap (fun c =>
    if isUriUnreserved c then [c]
    else (utf8Bytes c).flatMap (fun b => ['%', hexDigit (b / 16), hexDigit (b % 16)]))).asString

/-- The `EMULATOR_MIME_TYPE` constant (line 53). -/
def EMULATOR_MIME_TYPE : String := "image/jpeg"

/-- The `EMULATOR_GCS_URI` constant (line 52). -/
def EMULATOR_GCS_URI : String :=
  "gs://policypal-4meu1.firebasestorage.app/spenser-sembrat-s7W2PXuYGcc-unsplash.jpg"

/-- The object-finalized event data read by `describeAndStoreImage`:
`event.data.bucket`, `event.data.name`, `event.data.contentType` (the latter
two may be `undefined`). -/
structure UploadEvent where
  bucket : String
  name : Option String
  contentType : Option String
deriving DecidableEq, Repr

/-- Outcome oracle for every external collaborator one ingestion attempt
talks to.  `visionCallFails` models the `generateContent` call (after its
internal retries) throwing; `responseText` is the text part extracted from
its response (`none` when missing); the Pinecone upsert and the Firestore
`set` each either complete or throw without writing (each remote write is
treated as atomic).  The two `Date().toISOString()` calls are the two
timestamp fields. -/
structure IngestEnv where
  isEmulator : Bool
  visionCallFails : Bool
  responseText : Option String
  jsonParse : JsonParseOracle
  embedEnv : EmbedEnv
  pineconeUpsertOk : Bool
  firestoreSetOk : Bool
  pineconeTime : String
  firestoreTime : String

/-- The record upserted into the Pinecone vector index (lines 247-258). -/
structure VectorEntry where
  id : String
  values : List ℚ
  title : Option String
  description : String
  imageUrl : String
  uploadedAt : String
deriving DecidableEq, Repr

/-- The document written to the Firestore keyword index (lines 275-284). -/
structure KeywordDoc where
  docId : String
  imagePath : String
  gcsUri : String
  imageUrl : String
  uploadedAt : String
  title : Option String
  description : String
  keywords : List String
deriving DecidableEq, Repr

/-- Observable outcome of one ingestion attempt: the JS return value
(`some true` for `return true`, `none` for `return null`), whether the
description and embedding calls were issued, and what each index received. -/
structure IngestOutcome where
  result : Option Bool
  describeCalled : Bool
  embedCalled : Bool
  vectorWritten : Option VectorEntry
  keywordWritten : Option KeywordDoc
deriving DecidableEq, Repr

/-- `describeAndStoreImage` (lines 126-295), one ingestion attempt.
Validation rejects quietly; the `try` block describes, parses with fallback,
embeds, upserts to Pinecone, then writes to Firestore; the `catch` turns any
failure into `return null` after logging. -/
def describeAndStoreImage (env : IngestEnv) (event : UploadEvent) : IngestOutcome :=
  let effectiveContentType := if env.isEmulator then some EMULATOR_MIME_TYPE else event.contentType
  if !jsTruthyStr effectiveContentType
      || !jsStartsWith (effectiveContentType.getD "") "image/" then
    ⟨none, false, false, none, none⟩
  else if !jsTruthyStr event.name then
    ⟨none, false, false, none, none⟩
  else
    let filePath := event.name.getD ""
    let docId := basename filePath
    let gcsUriForVertex :=
      if env.isEmulator then EMULATOR_GCS_URI
      else "gs://" ++ event.bucket ++ "/" ++ filePath
    if env.visionCallFails then ⟨none, true, false, none, none⟩
    else if !jsTruthyStr env.responseText then ⟨none, true, false, none, none⟩
    else
      let responseText := env.responseText.getD ""
      let td := parsedDescription env.jsonParse responseText
      if !jsTruthyStr td.2 then ⟨none, true, false, none, none⟩
      else
        let desc := td.2.getD ""
        let imageUrl := "https://firebasestorage.googleapis.com/v0/b/" ++ event.bucket
          ++ "/o/" ++ encodeURIComponent filePath ++ "?alt=media"
        match generateMultimodalEmbedding env.embedEnv none (some gcsUriForVertex) with
        | .error _ => ⟨none, true, true, none, none⟩
        | .ok embedding =>
          if !env.pineconeUpsertOk then ⟨none, true, true, none, none⟩
          else
            let entry : VectorEntry :=
              ⟨docId, embedding, td.1, desc, imageUrl, env.pineconeTime⟩
            if !env.firestoreSetOk then ⟨none, true, true, some entry, none⟩
            else
              let doc : KeywordDoc :=
                ⟨docId, filePath, "gs://" ++ event.bucket ++ "/" ++ filePath, imageUrl,
                  env.firestoreTime, td.1, desc, ingestExtractKeywords desc⟩
              ⟨some true, true, true, some entry, some doc⟩

/-! ## `searchImages` (lines 304-429) -/

/-- A Firestore document as read back by `searchImages` (`doc.data()`). -/
structure DocRecord where
  docId : String
  imageUrl : String
  title : String
  keywords : List String
  uploadedAt : String
deriving DecidableEq, Repr

/-- The intermediate objects built at lines 369-384 (`matches`). -/
structure ScoredMatch where
  id : String
  score : Nat
  imageUrl : String
  title : String
deriving DecidableEq, Repr

/-- The final shape mapped at line 391: only `id`, `imageUrl`, `title`. -/
structure SearchResult where
  id : String
  imageUrl : String
  title : String
deriving DecidableEq, Repr

/-- Lines 371-377: score a candidate by counting, over `searchKeywords` (the
full, uncapped query keyword list), those present in the document's keyword
set. -/
def scoreDoc (searchKeywords : List String) (d : DocRecord) : Nat :=
  searchKeywords.countP (fun k => d.keywords.contains k)

/-- Lines 369-384: map each returned document to its scored match. -/
def scoredMatches (searchKeywords : List String) (docs : List DocRecord) : List ScoredMatch :=
  docs.map (fun d => ⟨d.docId, scoreDoc searchKeywords d, d.imageUrl, d.title⟩)

/-- `.sort((a, b) => b.score - a.score)` — a stable descending sort by score
(ECMAScript `Array.prototype.sort` is stable). -/
def sortByScoreDesc (ms : List ScoredMatch) : List ScoredMatch :=
  ms.mergeSort (fun a b => decide (b.score ≤ a.score))

/-- JS `arr.slice(0, k)` for a possibly negative `k`: a negative end counts
from the end of the array. -/
def jsSliceTo (l : List ScoredMatch) (k : Int) : List ScoredMatch :=
  l.take (if k < 0 then ((l.length : Int) + k).toNat else k.toNat)

/-- Lines 387-390: drop zero scores, sort descending, truncate to `topK` —
the list still carrying scores, just before the final projection. -/
def rankedScored (searchKeywords : List String) (docs : List DocRecord) (topK : Int) :
    List ScoredMatch :=
  jsSliceTo (sortByScoreDesc ((scoredMatches searchKeywords docs).filter (fun m => m.score > 0)))
    topK

/-- Lines 387-391: the ranking chain including the final projection to
`{id, imageUrl, title}`. -/
def rankedMatches (searchKeywords : List String) (docs : List DocRecord) (topK : Int) :
    List SearchResult :=
  (rankedScored searchKeywords docs topK).map (fun m => ⟨m.id, m.imageUrl, m.title⟩)

/-- Firestore `array-contains-any` semantics: whether a document can be a
candidate for the capped query keyword list. -/
def overlapsCapped (queryKeywords : List String) (d : DocRecord) : Bool :=
  queryKeywords.any (fun k => d.keywords.contains k)

/-- Oracles for the two Firestore queries `searchImages` can issue:
`overlapDocs queryKeywords fetchLimit` is the `array-contains-any` snapshot,
`recentDocs limit` the `orderBy uploadedAt desc` snapshot; `firestoreFails`
models either query throwing. -/
structure SearchEnv where
  overlapDocs : List String → Int → List DocRecord
  recentDocs : Int → List DocRecord
  firestoreFails : Bool

/-- An HTTP response of `searchImages`. -/
inductive SearchResponse where
  | results (rs : List SearchResult)
  | failure (status : Nat) (msg : String)
deriving DecidableEq, Repr

/-- `searchImages` (lines 304-429), non-OPTIONS request path. -/
def searchImages (env : SearchEnv) (q : Option String) (limit : Option String) :
    SearchResponse :=
  let topK := searchImagesTopK limit
  if env.firestoreFails then .failure 500 "Search failed due to an internal error."
  else if jsTruthyStr q then
    let textQuery := q.getD ""
    let searchKeywords := searchExtractKeywords textQuery
    if searchKeywords.isEmpty then .results []
    else
      let queryKeywords := searchKeywords.take 10
      let snapshot := env.overlapDocs queryKeywords (topK * 5)
      if snapshot.isEmpty then .results []
      else .results (rankedMatches searchKeywords snapshot topK)
  else
    .results ((env.recentDocs topK).map (fun d => ⟨d.docId, d.imageUrl, d.title⟩))

/-! ## `semanticSearchImages` (lines 534-597) -/

/-- A Pinecone match as consumed at lines 577-588; scores are modelled as
rationals. -/
structure VecMatch where
  id : String
  score : ℚ
  title : String
  imageUrl : String
deriving DecidableEq, Repr

/-- The result shape built at lines 582-587. -/
structure SemanticResult where
  id : String
  score : ℚ
  title : String
  imageUrl : String
deriving DecidableEq, Repr

/-- The `SCORE_THRESHOLD` constant of line 574. -/
def SCORE_THRESHOLD : ℚ := 5 / 100

/-- The projection of lines 582-587. -/
def toSemanticResult (m : VecMatch) : SemanticResult :=
  ⟨m.id, m.score, m.title, m.imageUrl⟩

/-- Oracles for `semanticSearchImages`: the embedding call environment, the
Pinecone `index.query` response (as a function of the query vector and
`topK`), and whether that query throws. -/
structure SemanticEnv where
  embedEnv : EmbedEnv
  queryMatches : List ℚ → Int → List VecMatch
  pineconeFails : Bool

/-- An HTTP response of `semanticSearchImages`. -/
inductive SemanticResponse where
  | results (rs : List SemanticResult)
  | failure (status : Nat) (msg : String)
deriving DecidableEq, Repr

/-- `semanticSearchImages` (lines 534-597), non-OPTIONS request path: 400 on
a falsy query, embed the query text, fetch the nearest neighbours, keep
exactly the matches with score strictly above the threshold in index order,
project; any thrown error becomes a 500. -/
def semanticSearchImages (env : SemanticEnv) (q : Option String) (limit : Option String) :
    SemanticResponse :=
  let topK := semanticSearchTopK limit
  if !jsTruthyStr q then .failure 400 "Missing search query"
  else
    match generateMultimodalEmbedding env.embedEnv q none with
    | .error _ => .failure 500 "Semantic search failed"
    | .ok embedding =>
      if env.pineconeFails then .failure 500 "Semantic search failed"
      else
        .results (((env.queryMatches embedding topK).filter
          (fun m => SCORE_THRESHOLD < m.score)).map toSemanticResult)

/-! ## Helper lemmas -/

theorem mem_dedupFirst : ∀ (l seen : List String) (x : String),
    x ∈ dedupFirst seen l ↔ x ∈ l ∧ x ∉ seen
  | [], seen, x => by simp [dedupFirst]
  | y :: ys, seen, x => by
    simp only [dedupFirst]
    split
    · next hy =>
      rw [mem_dedupFirst ys seen x]
      simp only [List.mem_cons]
      constructor
      · rintro ⟨h1, h2⟩
        exact ⟨Or.inr h1, h2⟩
      · rintro ⟨h1 | h1, h2⟩
        · exact absurd (h1 ▸ hy) h2
        · exact ⟨h1, h2⟩
    · next hy =>
      simp only [List.mem_cons, mem_dedupFirst ys (y :: seen) x]
      constructor
      · rintro (h | ⟨h1, h2⟩)
        · exact ⟨Or.inl h, h ▸ hy⟩
        · exact ⟨Or.inr h1, fun hx => h2 (by simp [List.mem_cons, hx])⟩
      · rintro ⟨h1 | h1, h2⟩
        · exact Or.inl h1
        · by_cases hxy : x = y
          · exact Or.inl hxy
          · exact Or.inr ⟨h1, by simp [List.mem_cons, hxy, h2]⟩

theorem dedupFirst_nodup : ∀ (l seen : List String), (dedupFirst seen l).Nodup
  | [], seen => by simp [dedupFirst]
  | y :: ys, seen => by
    simp only [dedupFirst]
    split
    · exact dedupFirst_nodup ys seen
    · refine List.nodup_cons.mpr ⟨fun hy => ?_, dedupFirst_nodup ys (y :: seen)⟩
      exact ((mem_dedupFirst ys (y :: seen) y).mp hy).2 (List.mem_cons_self y seen)

/-- For a duplicate-free list, `countP` is the cardinality of the matching
subset. -/
theorem countP_eq_card_filter_toFinset (l : List String) (p : String → Bool)
    (hl : l.Nodup) : l.countP p = (l.toFinset.filter (fun a => p a = true)).card := by
  rw [List.countP_eq_length_filter, ← List.toFinset_filter,
    List.toFinset_card_of_nodup (hl.filter p)]

/-- Closed form of the always-429 retry loop when at least one iteration is
allowed: the operation is attempted once per allowed iteration, the final
error is rethrown, and the successive base delays double from the initial
one. -/
theorem retry429Aux_spec : ∀ (rem delay : Nat),
    retry429Aux (rem + 1) delay =
      ⟨rem + 1, (List.range rem).map (fun i => delay * 2 ^ i), true⟩ := by
  intro rem
  induction rem with
  | zero => intro delay; simp [retry429Aux]
  | succ n ih =>
    intro delay
    have hstep : retry429Aux (n + 1 + 1) delay =
        ⟨(retry429Aux (n + 1) (delay * 2)).attempts + 1,
          delay :: (retry429Aux (n + 1) (delay * 2)).delays,
          (retry429Aux (n + 1) (delay * 2)).rethrows⟩ := by
      conv_lhs => rw [retry429Aux]
      simp
    rw [hstep, ih (delay * 2)]
    simp only [RetryTrace.mk.injEq, List.range_succ_eq_map, List.map_cons, List.map_map,
      pow_zero, Nat.mul_one, List.cons.injEq, true_and]
    refine ⟨List.map_congr_left (fun i _ => ?_), trivial⟩
    simp only [Function.comp_apply, Nat.succ_eq_add_one, pow_succ]
    ring

/-! ## Claim theorems -/

/-- Claim C5: for an operation that fails with a rate-limited (429) error on
every invocation, `retryWithBackoff` with `maxAttempts ≥ 1` and a positive
`initialDelay` invokes the operation exactly `maxAttempts` times in total
(including the first) and then rethrows the last error, and the base backoff
delays (jitter ignored) double from `initialDelay`, each strictly greater
than the previous one. -/
theorem claim_C5_retry_exhaustion (maxAttempts initialDelay : Nat)
    (h1 : 1 ≤ maxAttempts) (h2 : 0 < initialDelay) :
    (retryAlways429 maxAttempts initialDelay).attempts = maxAttempts ∧
    (retryAlways429 maxAttempts initialDelay).rethrows = true ∧
    (retryAlways429 maxAttempts initialDelay).delays =
      (List.range (maxAttempts - 1)).map (fun i => initialDelay * 2 ^ i) ∧
    (retryAlways429 maxAttempts initialDelay).delays.Pairwise (· < ·) := by
  obtain ⟨rem, rfl⟩ : ∃ rem, maxAttempts = rem + 1 := ⟨maxAttempts - 1, by omega⟩
  have hs := retry429Aux_spec rem initialDelay
  unfold retryAlways429
  rw [hs]
  refine ⟨rfl, rfl, by simp, ?_⟩
  exact List.Pairwise.map _
    (fun a b hab => Nat.mul_lt_mul_of_pos_left (Nat.pow_lt_pow_right (by omega) hab) h2)
    (List.pairwise_lt_range rem)

/-- Witness for C5 at `maxAttempts = 3`, `initialDelay = 1000`. -/
theorem claim_C5_witness :
    (retryAlways429 3 1000).attempts = 3 ∧
    (retryAlways429 3 1000).rethrows = true ∧
    (retryAlways429 3 1000).delays = (List.range (3 - 1)).map (fun i => 1000 * 2 ^ i) ∧
    (retryAlways429 3 1000).delays.Pairwise (· < ·) :=
  claim_C5_retry_exhaustion 3 1000 (by decide) (by decide)

/-- Claim C7: keyword extraction at ingestion time and at query time compute
the same function on every input string; the result is a deduplicated list of
tokens of length greater than 2, and `"running dogs"` yields exactly
`{"running", "dogs"}`. -/
theorem claim_C7_keyword_extraction_symmetry :
    (∀ s : String, ingestExtractKeywords s = searchExtractKeywords s) ∧
    ingestExtractKeywords "running dogs" = ["running", "dogs"] ∧
    (∀ s : String, (ingestExtractKeywords s).Nodup) ∧
    (∀ s : String, ∀ k ∈ ingestExtractKeywords s, 2 < k.length) := by
  refine ⟨fun s => rfl, by decide, fun s => dedupFirst_nodup _ _, fun s k hk => ?_⟩
  have hmem := ((mem_dedupFirst _ _ _).mp hk).1
  simp only [List.mem_filter, decide_eq_true_eq] at hmem
  exact hmem.2

/-- Witness for C7 at the input `"running dogs"`. -/
theorem claim_C7_witness :
    ingestExtractKeywords "running dogs" = searchExtractKeywords "running dogs" ∧
    (ingestExtractKeywords "running dogs").Nodup ∧
    (∀ k ∈ ingestExtractKeywords "running dogs", 2 < k.length) :=
  ⟨claim_C7_keyword_extraction_symmetry.1 "running dogs",
   claim_C7_keyword_extraction_symmetry.2.2.1 "running dogs",
   claim_C7_keyword_extraction_symmetry.2.2.2 "running dogs"⟩

/-- Claim C10: for both search endpoints, when the `limit` query parameter is
absent, not parseable as an integer, or parses to 0, the effective `topK`
is 5. -/
theorem claim_C10_limit_fallback (limit : Option String)
    (h : limit = none ∨ jsParseInt limit = none ∨ jsParseInt limit = some 0) :
    searchImagesTopK limit = 5 ∧ semanticSearchTopK limit = 5 := by
  rcases h with h | h | h
  · subst h
    exact ⟨rfl, rfl⟩
  · unfold searchImagesTopK semanticSearchTopK
    rw [h]
    exact ⟨rfl, rfl⟩
  · unfold searchImagesTopK semanticSearchTopK
    rw [h]
    exact ⟨rfl, rfl⟩

/-- Witness for C10 at `limit = "0"`: a caller passing `limit=0` gets the
default `topK = 5`, not zero results. -/
theorem claim_C10_witness :
    searchImagesTopK (some "0") = 5 ∧ semanticSearchTopK (some "0") = 5 :=
  claim_C10_limit_fallback (some "0") (Or.inr (Or.inr (by decide)))

/-- Counterexample to Claim C2: a remote response whose image-embedding field
has length 3 is returned as-is by the embedding client — the call succeeds
instead of failing, although 3 differs from the configured dimension 1408. -/
theorem claim_C2_counterexample :
    generateMultimodalEmbedding ⟨false, [⟨none, some [0, 0, 0]⟩]⟩ none (some "gs://bucket/img.jpg")
        = .ok [0, 0, 0] ∧
    ¬ (([0, 0, 0] : List ℚ).length = embeddingDimension) := by
  exact ⟨rfl, by decide⟩

/-- Claim C2 as amended: the embedding client requests the configured
dimension 1408 in its request parameters, but performs no validation of the
returned vector's length — any successful call returns exactly the embedding
field carried by the first prediction of the response (`textEmbedding` if
present, otherwise `imageEmbedding`), whatever its length; the call fails
only on empty predictions or when neither embedding field is present. -/
theorem claim_C2_embedding_passthrough (env : EmbedEnv) (text imageGcsUri : Option String)
    (v : List ℚ) (h : generateMultimodalEmbedding env text imageGcsUri = .ok v) :
    (buildEmbedRequest text imageGcsUri).dimension = 1408 ∧
    ∃ p, env.predictions.head? = some p ∧
      (p.textEmbedding = some v ∨ (p.textEmbedding = none ∧ p.imageEmbedding = some v)) := by
  refine ⟨rfl, ?_⟩
  unfold generateMultimodalEmbedding at h
  split at h
  · simp at h
  · split at h
    · simp at h
    · split at h
      · simp at h
      · next p rest heq =>
        refine ⟨p, by rw [heq]; rfl, ?_⟩
        split at h
        · next v' hv =>
          simp only [Except.ok.injEq] at h
          exact Or.inl (h ▸ hv)
        · next hv =>
          split at h
          · next v' hv2 =>
            simp only [Except.ok.injEq] at h
            exact Or.inr ⟨hv, h ▸ hv2⟩
          · simp at h

/-- Witness for the amended C2: a text query whose response carries a
2-element text embedding is returned unchanged. -/
theorem claim_C2_witness :
    (buildEmbedRequest (some "a dog") none).dimension = 1408 ∧
    ∃ p, (EmbedEnv.mk false [⟨some [1, 2], none⟩]).predictions.head? = some p ∧
      (p.textEmbedding = some [1, 2] ∨
        (p.textEmbedding = none ∧ p.imageEmbedding = some [1, 2])) :=
  claim_C2_embedding_passthrough ⟨false, [⟨some [1, 2], none⟩]⟩ (some "a dog") none [1, 2] rfl

/-- Counterexample to Claim C3: a query normalizing to 11 keywords against a
candidate containing all 11 (a legitimate candidate: it overlaps the capped
query keyword list used for the index lookup) receives score 11, which
exceeds `min(|query keywords|, 10) = 10` — scoring iterates over the full
`searchKeywords` list, not the capped `queryKeywords`. -/
theorem claim_C3_counterexample :
    (searchExtractKeywords "aaa bbb ccc ddd eee fff ggg hhh iii jjj kkk").length = 11 ∧
    overlapsCapped ((searchExtractKeywords "aaa bbb ccc ddd eee fff ggg hhh iii jjj kkk").take 10)
      ⟨"d1", "u1", "t1",
        ["aaa", "bbb", "ccc", "ddd", "eee", "fff", "ggg", "hhh", "iii", "jjj", "kkk"], "A"⟩
      = true ∧
    scoreDoc (searchExtractKeywords "aaa bbb ccc ddd eee fff ggg hhh iii jjj kkk")
      ⟨"d1", "u1", "t1",
        ["aaa", "bbb", "ccc", "ddd", "eee", "fff", "ggg", "hhh", "iii", "jjj", "kkk"], "A"⟩
      = 11 ∧
    ¬ (scoreDoc (searchExtractKeywords "aaa bbb ccc ddd eee fff ggg hhh iii jjj kkk")
      ⟨"d1", "u1", "t1",
        ["aaa", "bbb", "ccc", "ddd", "eee", "fff", "ggg", "hhh", "iii", "jjj", "kkk"], "A"⟩
      ≤ min (searchExtractKeywords "aaa bbb ccc ddd eee fff ggg hhh iii jjj kkk").length 10) := by
  decide

/-- Claim C3 as amended: each candidate's score equals the number of distinct
query keywords present in its keyword set, an integer in
`[0, |query keywords|]`; the cap of 10 applies only to the index lookup, not
to scoring, so a score may exceed 10 when the normalized query has more than
10 keywords. -/
theorem claim_C3_score_is_overlap_count (q : String) (d : DocRecord) :
    scoreDoc (searchExtractKeywords q) d =
      ((searchExtractKeywords q).toFinset.filter
        (fun k => d.keywords.contains k = true)).card ∧
    scoreDoc (searchExtractKeywords q) d ≤ (searchExtractKeywords q).length := by
  constructor
  · exact countP_eq_card_filter_toFinset _ _ (dedupFirst_nodup _ _)
  · exact List.countP_le_length _

/-- Counterexample to Claim C1: an ingestion attempt in which every step
succeeds except the keyword-index (Firestore) write fails the attempt
(returns null) yet leaves the new vector-index entry behind — the Pinecone
upsert precedes the Firestore write and is not rolled back. -/
theorem claim_C1_counterexample :
    (describeAndStoreImage
        ⟨false, false, some "a small red fox", fun _ => none,
          ⟨false, [⟨none, some [1]⟩]⟩, true, false, "T1", "T2"⟩
        ⟨"bkt", some "pics/fox.jpg", some "image/png"⟩).result = none ∧
    (describeAndStoreImage
        ⟨false, false, some "a small red fox", fun _ => none,
          ⟨false, [⟨none, some [1]⟩]⟩, true, false, "T1", "T2"⟩
        ⟨"bkt", some "pics/fox.jpg", some "image/png"⟩).vectorWritten.isSome = true :=
  ⟨rfl, rfl⟩

/-- Claim C1 as amended: a failure before the vector-index write leaves both
indexes unmodified, and the keyword index is never newly written unless the
vector index was written in the same attempt (a successful attempt writes
both); but the vector write precedes the keyword write, so a failure at the
keyword-index write leaves the new vector-index entry behind (the documented
inconsistency window). -/
theorem claim_C1_write_ordering (env : IngestEnv) (event : UploadEvent) :
    ((describeAndStoreImage env event).keywordWritten.isSome = true →
      (describeAndStoreImage env event).vectorWritten.isSome = true) ∧
    ((describeAndStoreImage env event).result = some true ↔
      (describeAndStoreImage env event).keywordWritten.isSome = true) ∧
    (env.visionCallFails = true →
      (describeAndStoreImage env event).vectorWritten = none ∧
      (describeAndStoreImage env event).keywordWritten = none) ∧
    (env.firestoreSetOk = false →
      (describeAndStoreImage env event).keywordWritten = none) := by
  have hMime1 : jsTruthyStr (some EMULATOR_MIME_TYPE) = true := by decide
  have hMime2 : jsStartsWith EMULATOR_MIME_TYPE "image/" = true := by decide
  unfold describeAndStoreImage
  repeat' split
  all_goals try simp_all
  all_goals repeat' split
  all_goals simp_all

/-- Witness for the amended C1 at a fully successful attempt. -/
theorem claim_C1_witness :
    ((describeAndStoreImage
        ⟨false, false, some "a small red fox", fun _ => none,
          ⟨false, [⟨none, some [1]⟩]⟩, true, true, "T1", "T2"⟩
        ⟨"bkt", some "pics/fox.jpg", some "image/png"⟩).keywordWritten.isSome = true →
      (describeAndStoreImage
        ⟨false, false, some "a small red fox", fun _ => none,
          ⟨false, [⟨none, some [1]⟩]⟩, true, true, "T1", "T2"⟩
        ⟨"bkt", some "pics/fox.jpg", some "image/png"⟩).vectorWritten.isSome = true) ∧
    ((describeAndStoreImage
        ⟨false, false, some "a small red fox", fun _ => none,
          ⟨false, [⟨none, some [1]⟩]⟩, true, true, "T1", "T2"⟩
        ⟨"bkt", some "pics/fox.jpg", some "image/png"⟩).result = some true ↔
      (describeAndStoreImage
        ⟨false, false, some "a small red fox", fun _ => none,
          ⟨false, [⟨none, some [1]⟩]⟩, true, true, "T1", "T2"⟩
        ⟨"bkt", some "pics/fox.jpg", some "image/png"⟩).keywordWritten.isSome = true) ∧
    ((⟨false, false, some "a small red fox", fun _ => none,
          ⟨false, [⟨none, some [1]⟩]⟩, true, true, "T1", "T2"⟩ : IngestEnv).visionCallFails = true →
      (describeAndStoreImage
        ⟨false, false, some "a small red fox", fun _ => none,
          ⟨false, [⟨none, some [1]⟩]⟩, true, true, "T1", "T2"⟩
        ⟨"bkt", some "pics/fox.jpg", some "image/png"⟩).vectorWritten = none ∧
      (describeAndStoreImage
        ⟨false, false, some "a small red fox", fun _ => none,
          ⟨false, [⟨none, some [1]⟩]⟩, true, true, "T1", "T2"⟩
        ⟨"bkt", some "pics/fox.jpg", some "image/png"⟩).keywordWritten = none) ∧
    ((⟨false, false, some "a small red fox", fun _ => none,
          ⟨false, [⟨none, some [1]⟩]⟩, true, true, "T1", "T2"⟩ : IngestEnv).firestoreSetOk = false →
      (describeAndStoreImage
        ⟨false, false, some "a small red fox", fun _ => none,
          ⟨false, [⟨none, some [1]⟩]⟩, true, true, "T1", "T2"⟩
        ⟨"bkt", some "pics/fox.jpg", some "image/png"⟩).keywordWritten = none) :=
  claim_C1_write_ordering
    ⟨false, false, some "a small red fox", fun _ => none,
      ⟨false, [⟨none, some [1]⟩]⟩, true, true, "T1", "T2"⟩
    ⟨"bkt", some "pics/fox.jpg", some "image/png"⟩

/-- Claim C4: outside the emulator, an upload event whose content type is
absent or not an image type, or whose file path is absent, terminates the
pipeline quietly (returns null) with no description call, no embedding call,
and no write to either index. -/
theorem claim_C4_validation_noop (env : IngestEnv) (event : UploadEvent)
    (hEmu : env.isEmulator = false)
    (h : jsTruthyStr event.contentType = false ∨
      jsStartsWith (event.contentType.getD "") "image/" = false ∨
      jsTruthyStr event.name = false) :
    describeAndStoreImage env event = ⟨none, false, false, none, none⟩ := by
  rcases h with h | h | h <;> simp [describeAndStoreImage, hEmu, h]

/-- Witness for C4 at a non-image upload. -/
theorem claim_C4_witness :
    describeAndStoreImage
      ⟨false, false, none, fun _ => none, ⟨false, []⟩, true, true, "T1", "T2"⟩
      ⟨"bkt", some "doc.pdf", some "text/plain"⟩ = ⟨none, false, false, none, none⟩ :=
  claim_C4_validation_noop _ _ rfl (Or.inr (Or.inl (by decide)))

/-- Claim C6: when the model's response text fails to parse as JSON after
code fences are stripped, ingestion does not fail at that point — the record
written to both indexes has the placeholder title "Untitled Image" and a
description equal to the entire raw response text. -/
theorem claim_C6_parse_fallback (env : IngestEnv) (event : UploadEvent) (t ct p : String)
    (hEmu : env.isEmulator = false)
    (hct : event.contentType = some ct) (hctImg : jsStartsWith ct "image/" = true)
    (hctNe : ct ≠ "")
    (hp : event.name = some p) (hpNe : p ≠ "")
    (hvision : env.visionCallFails = false)
    (htext : env.responseText = some t) (htNe : t ≠ "")
    (hparse : env.jsonParse (stripFences t) = none)
    (hembed : ∃ v, generateMultimodalEmbedding env.embedEnv none
        (some ("gs://" ++ event.bucket ++ "/" ++ p)) = .ok v)
    (hpine : env.pineconeUpsertOk = true) (hfs : env.firestoreSetOk = true) :
    ∃ entry doc,
      (describeAndStoreImage env event).vectorWritten = some entry ∧
      (describeAndStoreImage env event).keywordWritten = some doc ∧
      entry.title = some "Untitled Image" ∧ entry.description = t ∧
      doc.title = some "Untitled Image" ∧ doc.description = t ∧
      (describeAndStoreImage env event).result = some true := by
  obtain ⟨v, hv⟩ := hembed
  simp only [describeAndStoreImage, parsedDescription, hEmu, hct, hp, hvision, htext, hparse,
    hpine, hfs, hv, jsTruthyStr, Bool.false_eq_true, if_false, Option.getD_some]
  simp [hctNe, hpNe, htNe, hctImg]

/-- Witness for C6 at a concrete non-JSON response. -/
theorem claim_C6_witness :
    ∃ entry doc,
      (describeAndStoreImage
          ⟨false, false, some "raw text", fun _ => none,
            ⟨false, [⟨none, some [1]⟩]⟩, true, true, "T1", "T2"⟩
          ⟨"bkt", some "pics/a.jpg", some "image/png"⟩).vectorWritten = some entry ∧
      (describeAndStoreImage
          ⟨false, false, some "raw text", fun _ => none,
            ⟨false, [⟨none, some [1]⟩]⟩, true, true, "T1", "T2"⟩
          ⟨"bkt", some "pics/a.jpg", some "image/png"⟩).keywordWritten = some doc ∧
      entry.title = some "Untitled Image" ∧ entry.description = "raw text" ∧
      doc.title = some "Untitled Image" ∧ doc.description = "raw text" ∧
      (describeAndStoreImage
          ⟨false, false, some "raw text", fun _ => none,
            ⟨false, [⟨none, some [1]⟩]⟩, true, true, "T1", "T2"⟩
          ⟨"bkt", some "pics/a.jpg", some "image/png"⟩).result = some true :=
  claim_C6_parse_fallback
    ⟨false, false, some "raw text", fun _ => none,
      ⟨false, [⟨none, some [1]⟩]⟩, true, true, "T1", "T2"⟩
    ⟨"bkt", some "pics/a.jpg", some "image/png"⟩
    "raw text" "image/png" "pics/a.jpg"
    rfl rfl (by decide) (by decide) rfl (by decide) rfl rfl (by decide) rfl
    ⟨[1], rfl⟩ rfl rfl

/-- Claim C8: a semantic search that reaches the index returns exactly the
vector-index matches with similarity score strictly greater than 0.05, in
the order the index returned them (the ranker filters, it does not re-sort),
projected to `{id, score, title, imageUrl}`. -/
theorem claim_C8_threshold_filter (env : SemanticEnv) (q limit : Option String) (emb : List ℚ)
    (hq : jsTruthyStr q = true)
    (hemb : generateMultimodalEmbedding env.embedEnv q none = .ok emb)
    (hp : env.pineconeFails = false) :
    semanticSearchImages env q limit = .results
      (((env.queryMatches emb (semanticSearchTopK limit)).filter
          (fun m => SCORE_THRESHOLD < m.score)).map toSemanticResult) ∧
    (∀ r ∈ ((env.queryMatches emb (semanticSearchTopK limit)).filter
          (fun m => SCORE_THRESHOLD < m.score)).map toSemanticResult,
        SCORE_THRESHOLD < r.score) ∧
    (((env.queryMatches emb (semanticSearchTopK limit)).filter
          (fun m => SCORE_THRESHOLD < m.score)).map toSemanticResult).Sublist
      ((env.queryMatches emb (semanticSearchTopK limit)).map toSemanticResult) ∧
    (∀ m ∈ env.queryMatches emb (semanticSearchTopK limit), SCORE_THRESHOLD < m.score →
      toSemanticResult m ∈ ((env.queryMatches emb (semanticSearchTopK limit)).filter
          (fun m => SCORE_THRESHOLD < m.score)).map toSemanticResult) := by
  refine ⟨?_, ?_, ?_, ?_⟩
  · simp [semanticSearchImages, hq, hemb, hp]
  · intro r hr
    simp only [List.mem_map, List.mem_filter, decide_eq_true_eq] at hr
    obtain ⟨m, ⟨_, hscore⟩, rfl⟩ := hr
    exact hscore
  · exact (List.filter_sublist _).map toSemanticResult
  · intro m hm hscore
    exact List.mem_map.mpr ⟨m, List.mem_filter.mpr ⟨hm, by simpa using hscore⟩, rfl⟩

/-- Witness for C8: with `topK = 5` (default), a match with score 0.03 is
excluded and a match with score 0.06 is included. -/
theorem claim_C8_witness :
    semanticSearchImages
      ⟨⟨false, [⟨some [1], none⟩]⟩,
        fun _ _ => [⟨"a", 3/100, "ta", "ua"⟩, ⟨"b", 6/100, "tb", "ub"⟩], false⟩
      (some "sunset") none = .results [⟨"b", 6/100, "tb", "ub"⟩] := by
  have h := claim_C8_threshold_filter
    ⟨⟨false, [⟨some [1], none⟩]⟩,
      fun _ _ => [⟨"a", 3/100, "ta", "ua"⟩, ⟨"b", 6/100, "tb", "ub"⟩], false⟩
    (some "sunset") none [1] (by decide) rfl rfl
  rw [h.1]
  norm_num [SCORE_THRESHOLD, toSemanticResult, List.filter_cons, List.filter_nil]

/-- Claim C9: in keyword search with a non-empty query, zero-score candidates
are discarded, the rest are sorted in descending score order (stably), the
list is truncated to at most `topK` entries, and each returned entry exposes
only `id`, `imageUrl`, `title`. -/
theorem claim_C9_rank_truncate_project (searchKeywords : List String) (docs : List DocRecord)
    (topK : Nat) :
    rankedMatches searchKeywords docs (topK : Int) =
      (rankedScored searchKeywords docs (topK : Int)).map
        (fun m => ({ id := m.id, imageUrl := m.imageUrl, title := m.title } : SearchResult)) ∧
    (rankedMatches searchKeywords docs (topK : Int)).length ≤ topK ∧
    (rankedScored searchKeywords docs (topK : Int)).Pairwise (fun a b => b.score ≤ a.score) ∧
    (∀ m ∈ rankedScored searchKeywords docs (topK : Int), 0 < m.score) ∧
    (sortByScoreDesc ((scoredMatches searchKeywords docs).filter (fun m => m.score > 0))).Perm
      ((scoredMatches searchKeywords docs).filter (fun m => m.score > 0)) := by
  have hslice : ∀ l : List ScoredMatch, jsSliceTo l (topK : Int) = l.take topK := by
    intro l
    unfold jsSliceTo
    rw [if_neg (by omega)]
    simp
  have hpair : (sortByScoreDesc ((scoredMatches searchKeywords docs).filter
      (fun m => m.score > 0))).Pairwise (fun a b => b.score ≤ a.score) := by
    unfold sortByScoreDesc
    refine (List.sorted_mergeSort ?_ ?_ _).imp (fun h => of_decide_eq_true h)
    · intro a b c h1 h2
      simp only [decide_eq_true_eq] at h1 h2 ⊢
      omega
    · intro a b
      simp only [Bool.or_eq_true, decide_eq_true_eq]
      omega
  refine ⟨rfl, ?_, ?_, ?_, ?_⟩
  · unfold rankedMatches rankedScored
    rw [List.length_map, hslice]
    exact List.length_take_le _ _
  · unfold rankedScored
    rw [hslice]
    exact hpair.sublist (List.take_sublist _ _)
  · intro m hm
    unfold rankedScored at hm
    rw [hslice] at hm
    have hm2 : m ∈ sortByScoreDesc ((scoredMatches searchKeywords docs).filter
        (fun m => m.score > 0)) := (List.take_sublist _ _).mem hm
    have hm3 : m ∈ (scoredMatches searchKeywords docs).filter (fun m => m.score > 0) :=
      (List.mergeSort_perm _ _).mem_iff.mp hm2
    have := (List.mem_filter.mp hm3).2
    simpa using this
  · exact List.mergeSort_perm _ _

/-- Witness for C9 at a concrete corpus and `topK = 2`. -/
theorem claim_C9_witness :
    rankedMatches ["red", "fox", "dog"]
        [⟨"d1", "u1", "t1", ["red", "fox"], "A"⟩, ⟨"d2", "u2", "t2", ["cat"], "A"⟩,
          ⟨"d3", "u3", "t3", ["red", "fox", "dog"], "A"⟩] ((2 : Nat) : Int) =
      (rankedScored ["red", "fox", "dog"]
          [⟨"d1", "u1", "t1", ["red", "fox"], "A"⟩, ⟨"d2", "u2", "t2", ["cat"], "A"⟩,
            ⟨"d3", "u3", "t3", ["red", "fox", "dog"], "A"⟩] ((2 : Nat) : Int)).map
        (fun m => ({ id := m.id, imageUrl := m.imageUrl, title := m.title } : SearchResult)) ∧
    (rankedMatches ["red", "fox", "dog"]
        [⟨"d1", "u1", "t1", ["red", "fox"], "A"⟩, ⟨"d2", "u2", "t2", ["cat"], "A"⟩,
          ⟨"d3", "u3", "t3", ["red", "fox", "dog"], "A"⟩] ((2 : Nat) : Int)).length ≤ 2 ∧
    (rankedScored ["red", "fox", "dog"]
        [⟨"d1", "u1", "t1", ["red", "fox"], "A"⟩, ⟨"d2", "u2", "t2", ["cat"], "A"⟩,
          ⟨"d3", "u3", "t3", ["red", "fox", "dog"], "A"⟩] ((2 : Nat) : Int)).Pairwise
      (fun a b => b.score ≤ a.score) ∧
    (∀ m ∈ rankedScored ["red", "fox", "dog"]
        [⟨"d1", "u1", "t1", ["red", "fox"], "A"⟩, ⟨"d2", "u2", "t2", ["cat"], "A"⟩,
          ⟨"d3", "u3", "t3", ["red", "fox", "dog"], "A"⟩] ((2 : Nat) : Int), 0 < m.score) ∧
    (sortByScoreDesc ((scoredMatches ["red", "fox", "dog"]
        [⟨"d1", "u1", "t1", ["red", "fox"], "A"⟩, ⟨"d2", "u2", "t2", ["cat"], "A"⟩,
          ⟨"d3", "u3", "t3", ["red", "fox", "dog"], "A"⟩]).filter (fun m => m.score > 0))).Perm
      ((scoredMatches ["red", "fox", "dog"]
        [⟨"d1", "u1", "t1", ["red", "fox"], "A"⟩, ⟨"d2", "u2", "t2", ["cat"], "A"⟩,
          ⟨"d3", "u3", "t3", ["red", "fox", "dog"], "A"⟩]).filter (fun m => m.score > 0)) :=
  claim_C9_rank_truncate_project ["red", "fox", "dog"]
    [⟨"d1", "u1", "t1", ["red", "fox"], "A"⟩, ⟨"d2", "u2", "t2", ["cat"], "A"⟩,
      ⟨"d3", "u3", "t3", ["red", "fox", "dog"], "A"⟩] 2

end VertexPinecone
